import Mathlib

/-!
# emWin porting layer for MS-RTOS (`ms_emwin_porting.c`)

A shallow embedding of the callback hooks of `src/ms_emwin_porting.c`.

The hooks are glue code: each one issues a fixed sequence of calls to the
RTOS and to the GUI library.  A hook is modelled as a function from what the
outside world answers (return values of `ms_io_open`, `ms_io_ioctl`,
`ms_io_select`, ..., the records those calls fill in) to the *trace* of calls
the hook issues, in order, together with how the hook ends (`returned` or
`aborted`) and, where the hook owns mutable data, the new value of that data.
`abort()` does not return, so a trace always ends at the first `abort`.

Integers of the C code are mathematical integers (`Int`); the two places of
the source where a value is narrowed or where a product could overflow
(`int16_t last_x`, the `int` parameters of the size calls,
`(ms % 1000) * 1000`) carry an explicit wrap.
-/

set_option linter.unusedVariables false

namespace EmWinPort

/-! ## Machine integers -/

/-- Conversion of an integer value to `int16_t` (two's complement wrap). -/
def toInt16 (v : Int) : Int := (v + 2 ^ 15) % 2 ^ 16 - 2 ^ 15

/-- Conversion of an integer value to a 32-bit `int` (two's complement wrap). -/
def toInt32 (v : Int) : Int := (v + 2 ^ 31) % 2 ^ 32 - 2 ^ 31

/-- Smallest value of a 32-bit `int`. -/
def INT_MIN : Int := -(2 ^ 31)

/-- Largest value of a 32-bit `int`. -/
def INT_MAX : Int := 2 ^ 31 - 1

/-! ## Constants of the source file -/

/-- Source: `#define GUI_NUMBYTES  (16 * 1024)`. -/
def GUI_NUMBYTES : Nat := 16 * 1024

/-- Source: `#define NUM_BUFFERS  1`. -/
def NUM_BUFFERS : Nat := 1

/-- The null pointer `MS_NULL`. -/
def MS_NULL : Nat := 0

/-! ## Names declared by the headers the file includes

`GUI.h`, `GUIDRV_Lin.h` and `ms_rtos.h` are not part of the source tree.  The
objects the file only passes around by name are modelled as symbolic names. -/

/-- The linear framebuffer drivers named in `LCD_X_Config`. -/
inductive GUI_DEVICE_API where
  | GUIDRV_LIN_1 | GUIDRV_LIN_2 | GUIDRV_LIN_4 | GUIDRV_LIN_8
  | GUIDRV_LIN_16 | GUIDRV_LIN_24 | GUIDRV_LIN_32
  deriving DecidableEq, Repr

/-- The colour conversion routines named in the source file
(`GUICC_8888` only through the unused `COLOR_CONVERSION`). -/
inductive LCD_API_COLOR_CONV where
  | GUICC_1 | GUICC_2 | GUICC_4 | GUICC_8
  | GUICC_M565 | GUICC_M888 | GUICC_M8888 | GUICC_8888
  deriving DecidableEq, Repr

/-- Source: `#define COLOR_CONVERSION GUICC_8888` (not used by any routine). -/
def COLOR_CONVERSION : LCD_API_COLOR_CONV := .GUICC_8888

/-- Open flags used by the file. -/
inductive OpenFlag where
  | O_RDONLY | O_RDWR
  deriving DecidableEq, Repr

/-- Framebuffer control commands used by the file. -/
inductive FbCmd where
  | MS_FB_CMD_GET_VSCREENINFO | MS_FB_CMD_GET_FSCREENINFO
  deriving DecidableEq, Repr

/-- Wait type passed to the mutex and semaphore constructors. -/
inductive WaitType where
  | MS_WAIT_TYPE_PRIO
  deriving DecidableEq, Repr

/-- Fonts named in the file. -/
inductive Font where
  | GUI_FONT_6X8
  deriving DecidableEq, Repr

/-- The fields of `GUI_PID_STATE` the file writes. -/
structure GUI_PID_STATE where
  x : Int
  y : Int
  Pressed : Int
  Layer : Int
  deriving DecidableEq, Repr

/-- The fields of `ms_touch_event_t` the file reads: the contact count and the
first contact point `touch_x[0]`, `touch_y[0]`.  The integer type of the
coordinate fields is declared in `ms_rtos.h`; a coordinate is kept as the
integer value the field holds. -/
structure ms_touch_event_t where
  touch_detected : Int
  touch_x0 : Int
  touch_y0 : Int
  deriving DecidableEq, Repr

/-- The fields of `ms_fb_var_screeninfo_t` the file reads.  The record is
declared in `ms_rtos.h`; its resolution fields are unsigned 32-bit integers,
kept as the natural number the field holds. -/
structure ms_fb_var_screeninfo_t where
  xres : Nat
  yres : Nat
  xres_virtual : Nat
  yres_virtual : Nat
  bits_per_pixel : Int
  deriving DecidableEq, Repr

/-- The field of `ms_fb_fix_screeninfo_t` the file reads. -/
structure ms_fb_fix_screeninfo_t where
  smem_start : Nat
  deriving DecidableEq, Repr

/-! ## Traces -/

/-- One call issued by a hook to the RTOS, the C library or the GUI library,
with the arguments the hook passes. -/
inductive Call where
  | ms_printf (msg : String)
  | abort
  | ms_io_open (path : String) (flags : OpenFlag) (mode : Nat)
  | ms_io_ioctl (fd : Int) (cmd : FbCmd)
  | ms_io_select (nfds : Int) (rfds : List Int) (tv_sec tv_usec : Int)
  | ms_io_read (fd : Int) (len : Int)
  | GUI_TOUCH_StoreStateEx (st : GUI_PID_STATE)
  | GUI_DEVICE_CreateAndLink (dev : GUI_DEVICE_API) (cc : LCD_API_COLOR_CONV)
      (flags : Int) (layer : Int)
  | LCD_GetSwapXY
  | LCD_SetSizeEx (layer xSize ySize : Int)
  | LCD_SetVSizeEx (layer xSize ySize : Int)
  | LCD_SetVRAMAddrEx (layer : Int) (addr : Nat)
  | ms_malloc (size : Nat)
  | GUI_ALLOC_AssignMemory (mem : Nat) (size : Nat)
  | GUI_SetDefaultFont (font : Font)
  | ms_mutex_create (name : String) (wait : WaitType)
  | ms_semb_create (name : String) (init : Bool) (wait : WaitType)
  deriving DecidableEq, Repr

/-- How a hook ends. -/
inductive Outcome where
  | returned
  | aborted
  deriving DecidableEq, Repr

/-- The observable run of a hook. -/
structure Run where
  trace : List Call
  outcome : Outcome
  deriving DecidableEq, Repr

/-- Is the call a `GUI_TOUCH_StoreStateEx`? -/
def Call.isStoreState : Call → Bool
  | .GUI_TOUCH_StoreStateEx _ => true
  | _ => false

/-- Is the call an `ms_io_read`? -/
def Call.isRead : Call → Bool
  | .ms_io_read _ _ => true
  | _ => false

/-- Is the call a `GUI_DEVICE_CreateAndLink`? -/
def Call.isCreateAndLink : Call → Bool
  | .GUI_DEVICE_CreateAndLink _ _ _ _ => true
  | _ => false

/-- Is the call one that sets a size (`LCD_SetSizeEx`, `LCD_SetVSizeEx`)? -/
def Call.isSetSize : Call → Bool
  | .LCD_SetSizeEx _ _ _ => true
  | .LCD_SetVSizeEx _ _ _ => true
  | _ => false

/-- Is the call an `LCD_SetVRAMAddrEx`? -/
def Call.isSetVRAMAddr : Call → Bool
  | .LCD_SetVRAMAddrEx _ _ => true
  | _ => false

/-- What the outside world answers to `LCD_X_Config`: the results of
`ms_io_open` and of the two `ms_io_ioctl` queries, the records the queries
fill in, and the result of `LCD_GetSwapXY` (an `int`, tested for non-zero). -/
structure FbWorld where
  open_ret : Int
  vscreen_ret : Int
  fscreen_ret : Int
  var_info : ms_fb_var_screeninfo_t
  fix_info : ms_fb_fix_screeninfo_t
  swap_xy : Int
  deriving DecidableEq, Repr

/-- The `switch (var_info.bits_per_pixel)` of `LCD_X_Config`: the pair
`(dev_api, color_conv_api)` the matching `case` assigns, `none` for the
`default` branch. -/
def selectFormat (bits_per_pixel : Int) :
    Option (GUI_DEVICE_API × LCD_API_COLOR_CONV) :=
  if bits_per_pixel = 1 then some (.GUIDRV_LIN_1, .GUICC_1)
  else if bits_per_pixel = 2 then some (.GUIDRV_LIN_2, .GUICC_2)
  else if bits_per_pixel = 4 then some (.GUIDRV_LIN_4, .GUICC_4)
  else if bits_per_pixel = 8 then some (.GUIDRV_LIN_8, .GUICC_8)
  else if bits_per_pixel = 16 then some (.GUIDRV_LIN_16, .GUICC_M565)
  else if bits_per_pixel = 24 then some (.GUIDRV_LIN_24, .GUICC_M888)
  else if bits_per_pixel = 32 then some (.GUIDRV_LIN_32, .GUICC_M8888)
  else none

/-- The size configuration of `LCD_X_Config` (the `if (LCD_GetSwapXY())`
statement), as the calls it issues.  `LCD_SetSizeEx` and `LCD_SetVSizeEx` take
`int` sizes, so each unsigned field is converted to `int` at the call. -/
def configSizes (swap_xy : Int) (v : ms_fb_var_screeninfo_t) : List Call :=
  if swap_xy ≠ 0 then
    [.LCD_SetSizeEx 0 (toInt32 v.yres) (toInt32 v.xres),
     .LCD_SetVSizeEx 0 (toInt32 v.yres_virtual) (toInt32 v.xres_virtual)]
  else
    [.LCD_SetSizeEx 0 (toInt32 v.xres) (toInt32 v.yres),
     .LCD_SetVSizeEx 0 (toInt32 v.xres_virtual) (toInt32 v.yres_virtual)]

/-- Source: `void LCD_X_Config(void)`.  `NUM_BUFFERS` is 1 and `PALETTE` is
not defined, so the two conditional blocks are compiled out. -/
def LCD_X_Config (w : FbWorld) : Run :=
  let fb_fd := w.open_ret
  let t0 : List Call := [.ms_io_open "/dev/fb0" .O_RDWR 0o666]
  if fb_fd < 0 then
    ⟨t0 ++ [.ms_printf "Failed to open /dev/fb0 device!\n", .abort], .aborted⟩
  else
    let t1 := t0 ++ [.ms_io_ioctl fb_fd .MS_FB_CMD_GET_VSCREENINFO]
    if w.vscreen_ret < 0 then
      ⟨t1 ++ [.ms_printf "Failed to get /dev/fb0 variable screen info!\n", .abort],
        .aborted⟩
    else
      let t2 := t1 ++ [.ms_io_ioctl fb_fd .MS_FB_CMD_GET_FSCREENINFO]
      if w.fscreen_ret < 0 then
        ⟨t2 ++ [.ms_printf "Failed to get /dev/fb0 fix screen info!\n", .abort],
          .aborted⟩
      else
        match selectFormat w.var_info.bits_per_pixel with
        | none =>
          ⟨t2 ++ [.ms_printf "No supported screen format!\n", .abort], .aborted⟩
        | some (dev_api, color_conv_api) =>
          ⟨t2 ++ [.GUI_DEVICE_CreateAndLink dev_api color_conv_api 0 0, .LCD_GetSwapXY]
              ++ configSizes w.swap_xy w.var_info
              ++ [.LCD_SetVRAMAddrEx 0 w.fix_info.smem_start],
            .returned⟩

/-! ## `GUI_X_Delay` -/

/-- The function-local statics `static int16_t last_x`, `last_y`. -/
structure TouchCache where
  last_x : Int
  last_y : Int
  deriving DecidableEq, Repr

/-- Initial value of the statics: `last_x = 0`, `last_y = 0`. -/
def TouchCache.init : TouchCache := ⟨0, 0⟩

/-- What the outside world answers to one `GUI_X_Delay`: the results of
`ms_io_select` and `ms_io_read`, the contents of the local `event` after the
read, and the contents the local `pid_state` happens to have on entry (the
source does not initialise it). -/
structure DelayWorld where
  select_ret : Int
  read_ret : Int
  event : ms_touch_event_t
  stack : GUI_PID_STATE
  deriving DecidableEq, Repr

/-- Source: `tv.tv_sec = ms / 1000;` (C division truncates toward zero). -/
def tvSec (ms : Int) : Int := Int.tdiv ms 1000

/-- The mathematical value of the product `(ms % 1000) * 1000`, before it is
stored in an `int`. -/
def usecProduct (ms : Int) : Int := Int.tmod ms 1000 * 1000

/-- Source: `tv.tv_usec = (ms % 1000) * 1000;`, the product computed in
32-bit `int`. -/
def tvUsec (ms : Int) : Int := toInt32 (usecProduct ms)

/-- Source: `void GUI_X_Delay(int ms)`.  `gui_touch_fd` is the file-scope
descriptor, `sizeof_event` is `sizeof(ms_touch_event_t)`.  Returns the new
value of the statics and the calls issued. -/
def GUI_X_Delay (gui_touch_fd sizeof_event : Int) (w : DelayWorld)
    (c : TouchCache) (ms : Int) : TouchCache × List Call :=
  let t0 : List Call :=
    [.ms_io_select (gui_touch_fd + 1) [gui_touch_fd] (tvSec ms) (tvUsec ms)]
  if w.select_ret = 1 then
    let t1 := t0 ++ [.ms_io_read gui_touch_fd sizeof_event]
    let r : TouchCache × GUI_PID_STATE :=
      if w.read_ret = sizeof_event then
        if w.event.touch_detected > 0 then
          (⟨toInt16 w.event.touch_x0, toInt16 w.event.touch_y0⟩,
            { w.stack with x := w.event.touch_x0, y := w.event.touch_y0, Pressed := 1 })
        else
          (c, { w.stack with x := c.last_x, y := c.last_y, Pressed := 0 })
      else
        (c, w.stack)
    (r.1, t1 ++ [.GUI_TOUCH_StoreStateEx { r.2 with Layer := 0 }])
  else
    (c, t0)

/-- A sequence of `GUI_X_Delay` invocations (the `GUI_Delay` loop of the
example application), each with its own world answer and delay. -/
def runPolls (gui_touch_fd sizeof_event : Int) :
    List (DelayWorld × Int) → TouchCache → TouchCache × List Call
  | [], c => (c, [])
  | (w, ms) :: rest, c =>
    let r := GUI_X_Delay gui_touch_fd sizeof_event w c ms
    let r2 := runPolls gui_touch_fd sizeof_event rest r.1
    (r2.1, r.2 ++ r2.2)

/-! ## `GUI_X_Init`, `GUI_X_InitOS`, `GUI_X_Config` -/

/-- Source: `void GUI_X_Init(void)`.  `open_ret` is the result of
`ms_io_open`; the first component is the new value of `gui_touch_fd`. -/
def GUI_X_Init (open_ret : Int) : Int × Run :=
  let t0 : List Call := [.ms_io_open "/dev/touch0" .O_RDONLY 0o666]
  if open_ret < 0 then
    (open_ret, ⟨t0 ++ [.ms_printf "Failed to open /dev/touch0 device!\n", .abort], .aborted⟩)
  else
    (open_ret, ⟨t0, .returned⟩)

/-- Source: `void GUI_X_Config(void)`.  `mem` is the result of `ms_malloc`. -/
def GUI_X_Config (mem : Nat) : Run :=
  let t0 : List Call := [.ms_malloc GUI_NUMBYTES]
  if mem = MS_NULL then
    ⟨t0 ++ [.ms_printf "Failed to allocate memory!\n", .abort], .aborted⟩
  else
    ⟨t0 ++ [.GUI_ALLOC_AssignMemory mem GUI_NUMBYTES, .GUI_SetDefaultFont .GUI_FONT_6X8],
      .returned⟩

/-! ## `LCD_X_DisplayDriver` -/

/-- The command codes `LCD_X_...` the `switch` of `LCD_X_DisplayDriver`
names.  Their values are defined by the GUI library's headers, which are not
part of the source tree, so they are parameters of the model. -/
structure LcdCmds where
  LCD_X_INITCONTROLLER : Nat
  LCD_X_SETVRAMADDR : Nat
  LCD_X_SETORG : Nat
  LCD_X_SHOWBUFFER : Nat
  LCD_X_SETLUTENTRY : Nat
  LCD_X_ON : Nat
  LCD_X_OFF : Nat
  deriving DecidableEq, Repr

/-- The commands with a `case` label, in the order of the source. -/
def LcdCmds.handled (k : LcdCmds) : List Nat :=
  [k.LCD_X_INITCONTROLLER, k.LCD_X_SETVRAMADDR, k.LCD_X_SETORG, k.LCD_X_SHOWBUFFER,
    k.LCD_X_SETLUTENTRY, k.LCD_X_ON, k.LCD_X_OFF]

/-- Source: `int LCD_X_DisplayDriver(unsigned LayerIndex, unsigned Cmd,
void * pData)`. -/
def LCD_X_DisplayDriver (k : LcdCmds) (LayerIndex Cmd pData : Nat) : Int :=
  if Cmd = k.LCD_X_INITCONTROLLER then 0
  else if Cmd = k.LCD_X_SETVRAMADDR then 0
  else if Cmd = k.LCD_X_SETORG then 0
  else if Cmd = k.LCD_X_SHOWBUFFER then 0
  else if Cmd = k.LCD_X_SETLUTENTRY then 0
  else if Cmd = k.LCD_X_ON then 0
  else if Cmd = k.LCD_X_OFF then 0
  else -1

/-! ## The table of the specification -/

/-- The bits-per-pixel table as the specification words it: each supported
depth with its driver and colour conversion. -/
def specFormatTable : List (Int × GUI_DEVICE_API × LCD_API_COLOR_CONV) :=
  [(1, .GUIDRV_LIN_1, .GUICC_1), (2, .GUIDRV_LIN_2, .GUICC_2),
   (4, .GUIDRV_LIN_4, .GUICC_4), (8, .GUIDRV_LIN_8, .GUICC_8),
   (16, .GUIDRV_LIN_16, .GUICC_M565), (24, .GUIDRV_LIN_24, .GUICC_M888),
   (32, .GUIDRV_LIN_32, .GUICC_M8888)]

/-- The supported bits-per-pixel values. -/
def supportedDepths : List Int := [1, 2, 4, 8, 16, 24, 32]

/-! ## Helper lemmas -/

theorem selectFormat_none_of_unsupported (b : Int) (h : b ∉ supportedDepths) :
    selectFormat b = none := by
  simp [supportedDepths] at h
  simp [selectFormat, h]

theorem selectFormat_of_table (e : Int × GUI_DEVICE_API × LCD_API_COLOR_CONV)
    (he : e ∈ specFormatTable) : selectFormat e.1 = some e.2 := by
  simp [specFormatTable] at he
  rcases he with h | h | h | h | h | h | h <;> subst h <;> rfl

theorem toInt16_of_fits (v : Int) (h1 : -32768 ≤ v) (h2 : v ≤ 32767) : toInt16 v = v := by
  unfold toInt16
  omega

theorem toInt32_of_fits (v : Int) (h1 : INT_MIN ≤ v) (h2 : v ≤ INT_MAX) : toInt32 v = v := by
  unfold toInt32
  unfold INT_MIN at h1
  unfold INT_MAX at h2
  omega

/-! ## Display auto-configuration -/

/-- C1: when the framebuffer opens and both screen-info queries succeed, for
every entry `(b, driver, conversion)` of the specification table, a display
reporting `b` bits per pixel makes `LCD_X_Config` issue exactly one
`GUI_DEVICE_CreateAndLink`, with that driver, that conversion, flags 0 and
layer 0; the table covers exactly the depths 1, 2, 4, 8, 16, 24, 32; and the
dispatch is injective on those depths. -/
theorem LCD_X_Config_registers_table_entry (w : FbWorld)
    (e : Int × GUI_DEVICE_API × LCD_API_COLOR_CONV)
    (hopen : ¬ w.open_ret < 0) (hv : ¬ w.vscreen_ret < 0) (hf : ¬ w.fscreen_ret < 0)
    (he : e ∈ specFormatTable) (hb : w.var_info.bits_per_pixel = e.1) :
    (LCD_X_Config w).trace.filter Call.isCreateAndLink
        = [.GUI_DEVICE_CreateAndLink e.2.1 e.2.2 0 0]
      ∧ specFormatTable.map (fun t => t.1) = supportedDepths
      ∧ (∀ b1 ∈ supportedDepths, ∀ b2 ∈ supportedDepths,
          selectFormat b1 = selectFormat b2 → b1 = b2) := by
  refine ⟨?_, rfl, ?_⟩
  · have hs := selectFormat_of_table e he
    rw [← hb] at hs
    simp only [LCD_X_Config, hopen, hv, hf, if_false, hs]
    by_cases hsw : w.swap_xy = 0 <;>
      simp [configSizes, hsw, Call.isCreateAndLink, List.filter]
  · intro b1 h1 b2 h2
    simp only [supportedDepths, List.mem_cons, List.mem_singleton, List.not_mem_nil,
      or_false] at h1 h2
    rcases h1 with h | h | h | h | h | h | h <;>
      rcases h2 with g | g | g | g | g | g | g <;> subst h <;> subst g <;>
      simp [selectFormat]

theorem LCD_X_Config_registers_table_entry_witness :
    (LCD_X_Config ⟨3, 0, 0, ⟨480, 272, 480, 272, 16⟩, ⟨2147483648⟩, 0⟩).trace.filter
        Call.isCreateAndLink
        = [.GUI_DEVICE_CreateAndLink .GUIDRV_LIN_16 .GUICC_M565 0 0]
      ∧ specFormatTable.map (fun t => t.1) = supportedDepths
      ∧ (∀ b1 ∈ supportedDepths, ∀ b2 ∈ supportedDepths,
          selectFormat b1 = selectFormat b2 → b1 = b2) :=
  LCD_X_Config_registers_table_entry
    ⟨3, 0, 0, ⟨480, 272, 480, 272, 16⟩, ⟨2147483648⟩, 0⟩
    (16, .GUIDRV_LIN_16, .GUICC_M565) (by decide) (by decide) (by decide)
    (by simp [specFormatTable]) rfl

/-- C2: for every bits-per-pixel value outside 1, 2, 4, 8, 16, 24, 32,
`LCD_X_Config` ends in `abort` and issues no `GUI_DEVICE_CreateAndLink`, no
`LCD_SetSizeEx` or `LCD_SetVSizeEx` and no `LCD_SetVRAMAddrEx`; when the open
and both queries succeed, the calls it issues are exactly the open, the two
queries, the diagnostic "No supported screen format!" and `abort`. -/
theorem LCD_X_Config_unsupported_depth_aborts (w : FbWorld)
    (hb : w.var_info.bits_per_pixel ∉ supportedDepths) :
    (LCD_X_Config w).outcome = .aborted
      ∧ (LCD_X_Config w).trace.getLast? = some .abort
      ∧ (LCD_X_Config w).trace.filter Call.isCreateAndLink = []
      ∧ (LCD_X_Config w).trace.filter Call.isSetSize = []
      ∧ (LCD_X_Config w).trace.filter Call.isSetVRAMAddr = []
      ∧ (¬ w.open_ret < 0 → ¬ w.vscreen_ret < 0 → ¬ w.fscreen_ret < 0 →
          (LCD_X_Config w).trace =
            [.ms_io_open "/dev/fb0" .O_RDWR 0o666,
             .ms_io_ioctl w.open_ret .MS_FB_CMD_GET_VSCREENINFO,
             .ms_io_ioctl w.open_ret .MS_FB_CMD_GET_FSCREENINFO,
             .ms_printf "No supported screen format!\n",
             .abort]) := by
  have hs := selectFormat_none_of_unsupported _ hb
  by_cases hopen : w.open_ret < 0
  · simp [LCD_X_Config, hopen, Call.isCreateAndLink, Call.isSetSize, Call.isSetVRAMAddr,
      List.filter]
  · by_cases hv : w.vscreen_ret < 0
    · simp [LCD_X_Config, hopen, hv, Call.isCreateAndLink, Call.isSetSize,
        Call.isSetVRAMAddr, List.filter]
    · by_cases hf : w.fscreen_ret < 0
      · simp [LCD_X_Config, hopen, hv, hf, Call.isCreateAndLink, Call.isSetSize,
          Call.isSetVRAMAddr, List.filter]
      · simp [LCD_X_Config, hopen, hv, hf, hs, Call.isCreateAndLink, Call.isSetSize,
          Call.isSetVRAMAddr, List.filter]

theorem LCD_X_Config_unsupported_depth_aborts_witness :
    (LCD_X_Config ⟨3, 0, 0, ⟨480, 272, 480, 272, 15⟩, ⟨2147483648⟩, 0⟩).outcome = .aborted
      ∧ (LCD_X_Config ⟨3, 0, 0, ⟨480, 272, 480, 272, 15⟩, ⟨2147483648⟩, 0⟩).trace
          = [.ms_io_open "/dev/fb0" .O_RDWR 0o666,
             .ms_io_ioctl 3 .MS_FB_CMD_GET_VSCREENINFO,
             .ms_io_ioctl 3 .MS_FB_CMD_GET_FSCREENINFO,
             .ms_printf "No supported screen format!\n",
             .abort] :=
  have h := LCD_X_Config_unsupported_depth_aborts
    ⟨3, 0, 0, ⟨480, 272, 480, 272, 15⟩, ⟨2147483648⟩, 0⟩ (by decide)
  ⟨h.1, h.2.2.2.2.2 (by decide) (by decide) (by decide)⟩

/-- C3 (as stated, refuted): with the open and both queries succeeding, a
supported depth, no swap, and a queried resolution `W = 4294967295`,
`H = 2147483648` (both positive), the sizes set are `LCD_SetSizeEx(0, -1,
-2147483648)`, not `(W, H)`: the calls take `int` sizes.  With swap the
same geometry gives `(-2147483648, -1)`, not `(H, W)`. -/
theorem LCD_X_Config_sizes_wrap_above_INT_MAX :
    (LCD_X_Config ⟨3, 0, 0, ⟨4294967295, 2147483648, 480, 272, 16⟩, ⟨2147483648⟩, 0⟩).trace.filter
        Call.isSetSize
      = [.LCD_SetSizeEx 0 (-1) (-2147483648), .LCD_SetVSizeEx 0 480 272]
    ∧ (LCD_X_Config ⟨3, 0, 0, ⟨4294967295, 2147483648, 480, 272, 16⟩, ⟨2147483648⟩, 0⟩).trace.filter
        Call.isSetSize
      ≠ [.LCD_SetSizeEx 0 4294967295 2147483648, .LCD_SetVSizeEx 0 480 272]
    ∧ (LCD_X_Config ⟨3, 0, 0, ⟨4294967295, 2147483648, 480, 272, 16⟩, ⟨2147483648⟩, 1⟩).trace.filter
        Call.isSetSize
      = [.LCD_SetSizeEx 0 (-2147483648) (-1), .LCD_SetVSizeEx 0 272 480]
    ∧ (LCD_X_Config ⟨3, 0, 0, ⟨4294967295, 2147483648, 480, 272, 16⟩, ⟨2147483648⟩, 1⟩).trace.filter
        Call.isSetSize
      ≠ [.LCD_SetSizeEx 0 2147483648 4294967295, .LCD_SetVSizeEx 0 272 480] := by
  refine ⟨by decide, by decide, by decide, by decide⟩

/-- C3 (amended): when `LCD_X_Config` reaches the size configuration (the open
and both queries succeed and the depth is supported), with queried resolution
`W`, `H` (both positive) and virtual resolution `VW`, `VH`, all four at most
`INT_MAX`: if `LCD_GetSwapXY` answers non-zero, the size calls are exactly
`LCD_SetSizeEx(0, H, W)` then `LCD_SetVSizeEx(0, VH, VW)`; if it answers zero,
they are exactly `LCD_SetSizeEx(0, W, H)` then `LCD_SetVSizeEx(0, VW, VH)`. -/
theorem LCD_X_Config_sizes (w : FbWorld) (W H VW VH : Nat)
    (hopen : ¬ w.open_ret < 0) (hv : ¬ w.vscreen_ret < 0) (hf : ¬ w.fscreen_ret < 0)
    (hb : w.var_info.bits_per_pixel ∈ supportedDepths)
    (hW : w.var_info.xres = W) (hH : w.var_info.yres = H)
    (hVW : w.var_info.xres_virtual = VW) (hVH : w.var_info.yres_virtual = VH)
    (hWpos : 0 < W) (hHpos : 0 < H)
    (hWmax : (W : Int) ≤ INT_MAX) (hHmax : (H : Int) ≤ INT_MAX)
    (hVWmax : (VW : Int) ≤ INT_MAX) (hVHmax : (VH : Int) ≤ INT_MAX) :
    (w.swap_xy ≠ 0 →
        (LCD_X_Config w).trace.filter Call.isSetSize
          = [.LCD_SetSizeEx 0 H W, .LCD_SetVSizeEx 0 VH VW])
      ∧ (w.swap_xy = 0 →
        (LCD_X_Config w).trace.filter Call.isSetSize
          = [.LCD_SetSizeEx 0 W H, .LCD_SetVSizeEx 0 VW VH]) := by
  have hs : ∃ p, selectFormat w.var_info.bits_per_pixel = some p := by
    simp only [supportedDepths, List.mem_cons, List.mem_singleton, List.not_mem_nil,
      or_false] at hb
    rcases hb with h | h | h | h | h | h | h <;> rw [h] <;> exact ⟨_, rfl⟩
  obtain ⟨⟨dev, cc⟩, hs⟩ := hs
  have fits : ∀ n : Nat, (n : Int) ≤ INT_MAX → toInt32 (n : Int) = (n : Int) := by
    intro n hn
    apply toInt32_of_fits _ _ hn
    unfold INT_MIN
    omega
  have eW := fits W hWmax
  have eH := fits H hHmax
  have eVW := fits VW hVWmax
  have eVH := fits VH hVHmax
  subst hW hH hVW hVH
  constructor
  · intro hsw
    simp [LCD_X_Config, hopen, hv, hf, hs, configSizes, hsw, Call.isSetSize, List.filter,
      eW, eH, eVW, eVH]
  · intro hsw
    simp [LCD_X_Config, hopen, hv, hf, hs, configSizes, hsw, Call.isSetSize, List.filter,
      eW, eH, eVW, eVH]

theorem LCD_X_Config_sizes_witness :
    (LCD_X_Config ⟨3, 0, 0, ⟨480, 272, 480, 544, 16⟩, ⟨2147483648⟩, 1⟩).trace.filter
        Call.isSetSize
      = [.LCD_SetSizeEx 0 272 480, .LCD_SetVSizeEx 0 544 480] :=
  (LCD_X_Config_sizes ⟨3, 0, 0, ⟨480, 272, 480, 544, 16⟩, ⟨2147483648⟩, 1⟩
    480 272 480 544 (by decide) (by decide) (by decide) (by decide) rfl rfl rfl rfl
    (by decide) (by decide) (by decide) (by decide) (by decide) (by decide)).1 (by decide)

/-! ## Touch polling -/

/-- A poll that does not read a full record (the wait does not report
readiness, or the read does not return `sizeof(event)`) leaves the statics
unchanged. -/
theorem GUI_X_Delay_cache_unchanged (fd sz : Int) (w : DelayWorld) (c : TouchCache)
    (ms : Int) (h : w.select_ret ≠ 1 ∨ w.read_ret ≠ sz) :
    (GUI_X_Delay fd sz w c ms).1 = c := by
  unfold GUI_X_Delay
  by_cases hs : w.select_ret = 1
  · have hr : w.read_ret ≠ sz := by
      rcases h with h | h
      · exact absurd hs h
      · exact h
    simp [hs, hr]
  · simp [hs]

/-- A run of polls none of which reads a full record leaves the statics
unchanged. -/
theorem runPolls_cache_unchanged (fd sz : Int) (ps : List (DelayWorld × Int))
    (c : TouchCache) (h : ∀ p ∈ ps, p.1.select_ret ≠ 1 ∨ p.1.read_ret ≠ sz) :
    (runPolls fd sz ps c).1 = c := by
  induction ps generalizing c with
  | nil => rfl
  | cons p rest ih =>
    obtain ⟨w, ms⟩ := p
    have h1 := GUI_X_Delay_cache_unchanged fd sz w c ms (h (w, ms) (List.mem_cons_self _ _))
    simp only [runPolls, h1]
    exact ih c (fun q hq => h q (List.mem_cons_of_mem _ hq))

/-- C4 (the code at the failing input): starting from the initial statics
`(0, 0)`, a press record at `(40000, 10)` followed by a no-contact record
forwards the press at `(40000, 10)` but the release at `(-25536, 10)`: the
press branch forwards `event.touch_x[0]` as it is, the release branch replays
it through the `int16_t` static, which cannot hold 40000. -/
theorem GUI_X_Delay_release_wraps_large_coordinate :
    (GUI_X_Delay 3 36 ⟨1, 36, ⟨1, 40000, 10⟩, ⟨0, 0, 0, 0⟩⟩ TouchCache.init 20).2.filter
        Call.isStoreState
      = [.GUI_TOUCH_StoreStateEx ⟨40000, 10, 1, 0⟩]
    ∧ (GUI_X_Delay 3 36 ⟨1, 36, ⟨0, 0, 0⟩, ⟨0, 0, 0, 0⟩⟩
        (GUI_X_Delay 3 36 ⟨1, 36, ⟨1, 40000, 10⟩, ⟨0, 0, 0, 0⟩⟩ TouchCache.init 20).1
        20).2.filter Call.isStoreState
      = [.GUI_TOUCH_StoreStateEx ⟨-25536, 10, 0, 0⟩]
    ∧ (GUI_X_Delay 3 36 ⟨1, 36, ⟨0, 0, 0⟩, ⟨0, 0, 0, 0⟩⟩
        (GUI_X_Delay 3 36 ⟨1, 36, ⟨1, 40000, 10⟩, ⟨0, 0, 0, 0⟩⟩ TouchCache.init 20).1
        20).2.filter Call.isStoreState
      ≠ [.GUI_TOUCH_StoreStateEx ⟨40000, 10, 0, 0⟩] := by
  refine ⟨by decide, by decide, by decide⟩

/-- Press then release within the range of the statics: for every coordinate
pair `(x, y)` that `int16_t` holds, from any value of the statics, a poll that
reads a full record with `touch_detected > 0` and first contact point `(x, y)`
forwards exactly one event, `Pressed = 1` at `(x, y)`, layer 0; after any
number of polls that read no full record, the next poll that reads a full
record with `touch_detected = 0` forwards exactly one event, `Pressed = 0` at
that same `(x, y)`, layer 0. -/
theorem GUI_X_Delay_press_then_release (fd sz : Int) (c0 : TouchCache)
    (wp wr : DelayWorld) (mid : List (DelayWorld × Int)) (ms1 ms2 x y : Int)
    (hx1 : -32768 ≤ x) (hx2 : x ≤ 32767) (hy1 : -32768 ≤ y) (hy2 : y ≤ 32767)
    (hps : wp.select_ret = 1) (hpr : wp.read_ret = sz)
    (hpd : wp.event.touch_detected > 0)
    (hpx : wp.event.touch_x0 = x) (hpy : wp.event.touch_y0 = y)
    (hmid : ∀ p ∈ mid, p.1.select_ret ≠ 1 ∨ p.1.read_ret ≠ sz)
    (hrs : wr.select_ret = 1) (hrr : wr.read_ret = sz)
    (hrd : wr.event.touch_detected = 0) :
    (GUI_X_Delay fd sz wp c0 ms1).2.filter Call.isStoreState
        = [.GUI_TOUCH_StoreStateEx ⟨x, y, 1, 0⟩]
      ∧ (GUI_X_Delay fd sz wr
          (runPolls fd sz mid (GUI_X_Delay fd sz wp c0 ms1).1).1 ms2).2.filter
            Call.isStoreState
        = [.GUI_TOUCH_StoreStateEx ⟨x, y, 0, 0⟩] := by
  have hc : (GUI_X_Delay fd sz wp c0 ms1).1 = ⟨x, y⟩ := by
    simp [GUI_X_Delay, hps, hpr, hpd, hpx, hpy, toInt16_of_fits x hx1 hx2,
      toInt16_of_fits y hy1 hy2]
  constructor
  · simp [GUI_X_Delay, hps, hpr, hpd, hpx, hpy, Call.isStoreState, List.filter]
  · rw [runPolls_cache_unchanged fd sz mid _ hmid, hc]
    simp [GUI_X_Delay, hrs, hrr, hrd, Call.isStoreState, List.filter]

theorem GUI_X_Delay_press_then_release_witness :
    (GUI_X_Delay 3 36 ⟨1, 36, ⟨1, 120, 45⟩, ⟨9, 9, 9, 9⟩⟩ TouchCache.init 20).2.filter
        Call.isStoreState
        = [.GUI_TOUCH_StoreStateEx ⟨120, 45, 1, 0⟩]
      ∧ (GUI_X_Delay 3 36 ⟨1, 36, ⟨0, 7, 8⟩, ⟨9, 9, 9, 9⟩⟩
          (runPolls 3 36 [(⟨0, 0, ⟨0, 0, 0⟩, ⟨9, 9, 9, 9⟩⟩, 20)]
            (GUI_X_Delay 3 36 ⟨1, 36, ⟨1, 120, 45⟩, ⟨9, 9, 9, 9⟩⟩
              TouchCache.init 20).1).1 20).2.filter Call.isStoreState
        = [.GUI_TOUCH_StoreStateEx ⟨120, 45, 0, 0⟩] :=
  GUI_X_Delay_press_then_release 3 36 TouchCache.init
    ⟨1, 36, ⟨1, 120, 45⟩, ⟨9, 9, 9, 9⟩⟩ ⟨1, 36, ⟨0, 7, 8⟩, ⟨9, 9, 9, 9⟩⟩
    [(⟨0, 0, ⟨0, 0, 0⟩, ⟨9, 9, 9, 9⟩⟩, 20)] 20 20 120 45
    (by decide) (by decide) (by decide) (by decide) rfl rfl (by decide) rfl rfl
    (by simp) rfl rfl rfl

/-- C5 (the code at the failing input): the wait reports readiness, the read
returns 0 instead of `sizeof(event) = 36`, the local `pid_state` holds
`x = 123, y = 456, Pressed = 7` on entry, the statics hold `(50, 60)` and the
record buffer holds a contact at `(100, 200)`.  The one forwarded event is
`x = 123, y = 456, Pressed = 7, Layer = 0`: neither the press at the record's
first contact point nor the release at the last known position. -/
theorem GUI_X_Delay_short_read_forwards_uninitialised :
    (GUI_X_Delay 3 36 ⟨1, 0, ⟨1, 100, 200⟩, ⟨123, 456, 7, 9⟩⟩ ⟨50, 60⟩ 20).2.filter
        Call.isStoreState
      = [.GUI_TOUCH_StoreStateEx ⟨123, 456, 7, 0⟩]
    ∧ (GUI_X_Delay 3 36 ⟨1, 0, ⟨1, 100, 200⟩, ⟨123, 456, 7, 9⟩⟩ ⟨50, 60⟩ 20).2.filter
        Call.isStoreState
      ≠ [.GUI_TOUCH_StoreStateEx ⟨100, 200, 1, 0⟩]
    ∧ (GUI_X_Delay 3 36 ⟨1, 0, ⟨1, 100, 200⟩, ⟨123, 456, 7, 9⟩⟩ ⟨50, 60⟩ 20).2.filter
        Call.isStoreState
      ≠ [.GUI_TOUCH_StoreStateEx ⟨50, 60, 0, 0⟩] := by
  refine ⟨by decide, by decide, by decide⟩

/-- C6: when `ms_io_select` returns a value other than 1, `GUI_X_Delay` issues
the `ms_io_select` call and nothing else: no `GUI_TOUCH_StoreStateEx`, no
`ms_io_read`, and the statics `last_x`, `last_y` keep their value. -/
theorem GUI_X_Delay_timeout_forwards_nothing (fd sz : Int) (w : DelayWorld)
    (c : TouchCache) (ms : Int) (h : w.select_ret ≠ 1) :
    (GUI_X_Delay fd sz w c ms).2.filter Call.isStoreState = []
      ∧ (GUI_X_Delay fd sz w c ms).2.filter Call.isRead = []
      ∧ (GUI_X_Delay fd sz w c ms).1 = c
      ∧ (GUI_X_Delay fd sz w c ms).2
          = [.ms_io_select (fd + 1) [fd] (tvSec ms) (tvUsec ms)] := by
  simp [GUI_X_Delay, h, Call.isStoreState, Call.isRead, List.filter]

theorem GUI_X_Delay_timeout_forwards_nothing_witness :
    (GUI_X_Delay 3 36 ⟨0, 36, ⟨1, 100, 200⟩, ⟨9, 9, 9, 9⟩⟩ ⟨50, 60⟩ 20).2.filter
        Call.isStoreState = []
      ∧ (GUI_X_Delay 3 36 ⟨0, 36, ⟨1, 100, 200⟩, ⟨9, 9, 9, 9⟩⟩ ⟨50, 60⟩ 20).2.filter
        Call.isRead = []
      ∧ (GUI_X_Delay 3 36 ⟨0, 36, ⟨1, 100, 200⟩, ⟨9, 9, 9, 9⟩⟩ ⟨50, 60⟩ 20).1 = ⟨50, 60⟩
      ∧ (GUI_X_Delay 3 36 ⟨0, 36, ⟨1, 100, 200⟩, ⟨9, 9, 9, 9⟩⟩ ⟨50, 60⟩ 20).2
          = [.ms_io_select (3 + 1) [3] (tvSec 20) (tvUsec 20)] :=
  GUI_X_Delay_timeout_forwards_nothing 3 36 ⟨0, 36, ⟨1, 100, 200⟩, ⟨9, 9, 9, 9⟩⟩
    ⟨50, 60⟩ 20 (by decide)

/-- C10: for every `ms ≥ 0` that a 32-bit `int` holds, the first call of
`GUI_X_Delay` is `ms_io_select` with a timeout `(tv_sec, tv_usec)` such that
`tv_sec * 1000000 + tv_usec = ms * 1000` and `0 ≤ tv_usec < 1000000`, and the
product `(ms % 1000) * 1000` lies within the range of `int`. -/
theorem GUI_X_Delay_timeout_equals_delay (fd sz : Int) (w : DelayWorld)
    (c : TouchCache) (ms : Int) (h0 : 0 ≤ ms) (h1 : ms ≤ INT_MAX) :
    ∃ tv_sec tv_usec : Int,
      (GUI_X_Delay fd sz w c ms).2.head?
          = some (.ms_io_select (fd + 1) [fd] tv_sec tv_usec)
        ∧ tv_sec * 1000000 + tv_usec = ms * 1000
        ∧ 0 ≤ tv_usec ∧ tv_usec < 1000000
        ∧ INT_MIN ≤ usecProduct ms ∧ usecProduct ms ≤ INT_MAX := by
  have hdm := Int.tdiv_add_tmod ms 1000
  have hm0 : 0 ≤ Int.tmod ms 1000 := Int.tmod_nonneg 1000 h0
  have hm1 : Int.tmod ms 1000 < 1000 := Int.tmod_lt_of_pos ms (by norm_num)
  have hp1 : INT_MIN ≤ usecProduct ms := by
    unfold usecProduct INT_MIN
    omega
  have hp2 : usecProduct ms ≤ INT_MAX := by
    unfold usecProduct INT_MAX
    omega
  have hu : tvUsec ms = usecProduct ms := toInt32_of_fits _ hp1 hp2
  refine ⟨tvSec ms, tvUsec ms, ?_, ?_, ?_, ?_, hp1, hp2⟩
  · unfold GUI_X_Delay
    by_cases hs : w.select_ret = 1 <;> simp [hs]
  · rw [hu]
    unfold tvSec usecProduct
    omega
  · rw [hu]
    unfold usecProduct
    omega
  · rw [hu]
    unfold usecProduct
    omega

theorem GUI_X_Delay_timeout_equals_delay_witness :
    ∃ tv_sec tv_usec : Int,
      (GUI_X_Delay 3 36 ⟨0, 0, ⟨0, 0, 0⟩, ⟨0, 0, 0, 0⟩⟩ TouchCache.init 2147483647).2.head?
          = some (.ms_io_select (3 + 1) [3] tv_sec tv_usec)
        ∧ tv_sec * 1000000 + tv_usec = 2147483647 * 1000
        ∧ 0 ≤ tv_usec ∧ tv_usec < 1000000
        ∧ INT_MIN ≤ usecProduct 2147483647 ∧ usecProduct 2147483647 ≤ INT_MAX :=
  GUI_X_Delay_timeout_equals_delay 3 36 ⟨0, 0, ⟨0, 0, 0⟩, ⟨0, 0, 0, 0⟩⟩ TouchCache.init
    2147483647 (by decide) (by decide)

/-! ## Controller command dispatch -/

/-- C7: whatever the values of the command codes, the result of
`LCD_X_DisplayDriver` does not depend on `LayerIndex` or `pData`; it is 0 when
`Cmd` is one of `LCD_X_INITCONTROLLER`, `LCD_X_SETVRAMADDR`, `LCD_X_SETORG`,
`LCD_X_SHOWBUFFER`, `LCD_X_SETLUTENTRY`, `LCD_X_ON`, `LCD_X_OFF`, it is -1 for
every other `Cmd`, and it is never below -1. -/
theorem LCD_X_DisplayDriver_tristate (k : LcdCmds) (LayerIndex Cmd pData : Nat) :
    (∀ LayerIndex2 pData2 : Nat,
        LCD_X_DisplayDriver k LayerIndex2 Cmd pData2
          = LCD_X_DisplayDriver k LayerIndex Cmd pData)
      ∧ (Cmd ∈ k.handled → LCD_X_DisplayDriver k LayerIndex Cmd pData = 0)
      ∧ (Cmd ∉ k.handled → LCD_X_DisplayDriver k LayerIndex Cmd pData = -1)
      ∧ -1 ≤ LCD_X_DisplayDriver k LayerIndex Cmd pData := by
  refine ⟨fun _ _ => rfl, ?_, ?_, ?_⟩
  · intro h
    simp only [LcdCmds.handled, List.mem_cons, List.mem_singleton, List.not_mem_nil,
      or_false] at h
    unfold LCD_X_DisplayDriver
    rcases h with h | h | h | h | h | h | h <;> simp [h]
  · intro h
    simp only [LcdCmds.handled, List.mem_cons, List.mem_singleton, List.not_mem_nil,
      or_false, not_or] at h
    simp [LCD_X_DisplayDriver, h]
  · unfold LCD_X_DisplayDriver
    split_ifs <;> decide

theorem LCD_X_DisplayDriver_tristate_witness :
    LCD_X_DisplayDriver ⟨1, 2, 3, 14, 4, 5, 6⟩ 0 14 0 = 0
      ∧ LCD_X_DisplayDriver ⟨1, 2, 3, 14, 4, 5, 6⟩ 0 7 0 = -1 :=
  have h := LCD_X_DisplayDriver_tristate ⟨1, 2, 3, 14, 4, 5, 6⟩ 0 14 0
  have g := LCD_X_DisplayDriver_tristate ⟨1, 2, 3, 14, 4, 5, 6⟩ 0 7 0
  ⟨h.2.1 (by decide), g.2.2.1 (by decide)⟩

/-! ## Fatal setup errors -/

/-- C8: each failure of a device open, of a control call or of the allocation
ends the routine with a diagnostic message followed by `abort`, and nothing
after it: `GUI_X_Init` when `/dev/touch0` does not open; `LCD_X_Config` when
`/dev/fb0` does not open (no query is issued), when the variable-screen-info
query fails (the fixed-screen-info query is not issued), when the
fixed-screen-info query fails (no driver is registered); `GUI_X_Config` when
the allocation of 16 KiB returns null (no memory is assigned). -/
theorem setup_failures_print_then_abort (touch_ret : Int) (w1 w2 w3 : FbWorld) (mem : Nat)
    (htouch : touch_ret < 0)
    (h1 : w1.open_ret < 0)
    (h2o : ¬ w2.open_ret < 0) (h2 : w2.vscreen_ret < 0)
    (h3o : ¬ w3.open_ret < 0) (h3v : ¬ w3.vscreen_ret < 0) (h3 : w3.fscreen_ret < 0)
    (hmem : mem = MS_NULL) :
    (GUI_X_Init touch_ret).2 =
        ⟨[.ms_io_open "/dev/touch0" .O_RDONLY 0o666,
          .ms_printf "Failed to open /dev/touch0 device!\n", .abort], .aborted⟩
      ∧ LCD_X_Config w1 =
        ⟨[.ms_io_open "/dev/fb0" .O_RDWR 0o666,
          .ms_printf "Failed to open /dev/fb0 device!\n", .abort], .aborted⟩
      ∧ LCD_X_Config w2 =
        ⟨[.ms_io_open "/dev/fb0" .O_RDWR 0o666,
          .ms_io_ioctl w2.open_ret .MS_FB_CMD_GET_VSCREENINFO,
          .ms_printf "Failed to get /dev/fb0 variable screen info!\n", .abort], .aborted⟩
      ∧ LCD_X_Config w3 =
        ⟨[.ms_io_open "/dev/fb0" .O_RDWR 0o666,
          .ms_io_ioctl w3.open_ret .MS_FB_CMD_GET_VSCREENINFO,
          .ms_io_ioctl w3.open_ret .MS_FB_CMD_GET_FSCREENINFO,
          .ms_printf "Failed to get /dev/fb0 fix screen info!\n", .abort], .aborted⟩
      ∧ GUI_X_Config mem =
        ⟨[.ms_malloc (16 * 1024), .ms_printf "Failed to allocate memory!\n", .abort],
          .aborted⟩ := by
  refine ⟨?_, ?_, ?_, ?_, ?_⟩
  · simp [GUI_X_Init, htouch]
  · simp [LCD_X_Config, h1]
  · simp [LCD_X_Config, h2o, h2]
  · simp [LCD_X_Config, h3o, h3v, h3]
  · simp [GUI_X_Config, hmem, GUI_NUMBYTES]

theorem setup_failures_print_then_abort_witness :
    (GUI_X_Init (-1)).2.outcome = .aborted
      ∧ (LCD_X_Config ⟨-1, 0, 0, ⟨480, 272, 480, 272, 16⟩, ⟨2147483648⟩, 0⟩).outcome
          = .aborted
      ∧ (LCD_X_Config ⟨3, -1, 0, ⟨480, 272, 480, 272, 16⟩, ⟨2147483648⟩, 0⟩).outcome
          = .aborted
      ∧ (LCD_X_Config ⟨3, 0, -1, ⟨480, 272, 480, 272, 16⟩, ⟨2147483648⟩, 0⟩).outcome
          = .aborted
      ∧ (GUI_X_Config 0).outcome = .aborted :=
  have h := setup_failures_print_then_abort (-1)
    ⟨-1, 0, 0, ⟨480, 272, 480, 272, 16⟩, ⟨2147483648⟩, 0⟩
    ⟨3, -1, 0, ⟨480, 272, 480, 272, 16⟩, ⟨2147483648⟩, 0⟩
    ⟨3, 0, -1, ⟨480, 272, 480, 272, 16⟩, ⟨2147483648⟩, 0⟩ 0
    (by decide) (by decide) (by decide) (by decide) (by decide) (by decide) (by decide) rfl
  ⟨by rw [h.1], by rw [h.2.1], by rw [h.2.2.1], by rw [h.2.2.2.1], by rw [h.2.2.2.2]⟩

end EmWinPort
